import Mathlib

/-!
Verification of the item-service request handler of the serverless-api
program (source: src/aws-python/serverless-api/__main__.py, the Lambda
function body embedded as the string literal `lambda_code`).

The handler is shallowly embedded: Python JSON values become the inductive
type `JVal`; `json.loads` / `json.dumps` become an executable parser and
renderer; Python exceptions become `Except String` where the `String` is
the exception's human-readable description (`str(e)`); the DynamoDB table
(an external collaborator, declared in the source with hash key `id` of
type `S`) is modelled as an association list keyed by that string id.
-/

namespace ServerlessApi

/-- Python/JSON values as produced by `json.loads` and consumed by
`json.dumps`.  `jint` and `jfloat` are the two Python number types a JSON
parse can produce; `jdec` is `decimal.Decimal`, which only enters via
reads from the DynamoDB store.  Numeric payloads are carried exactly as
rationals. -/
inductive JVal where
  | jnull : JVal
  | jbool : Bool → JVal
  | jint : Int → JVal
  | jfloat : Rat → JVal
  | jdec : Rat → JVal
  | jstr : String → JVal
  | jarr : List JVal → JVal
  | jobj : List (String × JVal) → JVal

/-- Dictionary lookup with Python semantics: when a key occurs several
times in the field list (possible only transiently, e.g. duplicate keys in
a JSON text), the last binding wins, as in a Python dict built left to
right. -/
def olookup (fields : List (String × JVal)) (k : String) : Option JVal :=
  (fields.reverse.find? (fun p => p.1 == k)).map (fun p => p.2)

/-- Python subscript `v[k]`: a `KeyError` (whose `str` is the quoted key)
when the key is absent, a `TypeError` when the value is not a dict. -/
def pyGet (v : JVal) (k : String) : Except String JVal :=
  match v with
  | JVal.jobj fields =>
    match olookup fields k with
    | some x => Except.ok x
    | none => Except.error ("'" ++ k ++ "'")
  | _ => Except.error "TypeError: object is not subscriptable"

/-- The chained subscript `event[k1][k2][k3]` used by the handler's first
two lines. -/
def pyGet3 (v : JVal) (k1 k2 k3 : String) : Except String JVal :=
  match pyGet v k1 with
  | Except.error e => Except.error e
  | Except.ok a =>
    match pyGet a k2 with
    | Except.error e => Except.error e
    | Except.ok b => pyGet b k3

/-- Python `==` between a value and a string literal: `True` only when the
value is that very string; comparisons across types are `False`, never an
error. -/
def isStr (v : JVal) (s : String) : Bool :=
  match v with
  | JVal.jstr t => t == s
  | _ => false

/-- Character-list version of Python `str.startswith`. -/
def chStarts : List Char → List Char → Bool
  | [], _ => true
  | _ :: _, [] => false
  | a :: as, b :: bs => a == b && chStarts as bs

/-- Python `s.startswith(pre)`. -/
def pyStartsWith (s pre : String) : Bool :=
  chStarts pre.data s.data

/-- Python `s.split(c)` on character lists: splits at every occurrence of
the separator and keeps empty segments, so the result is never empty. -/
def splitChar (c : Char) : List Char → List (List Char)
  | [] => [[]]
  | x :: xs =>
    if x = c then [] :: splitChar c xs
    else
      match splitChar c xs with
      | [] => [[x]]
      | g :: gs => (x :: g) :: gs

/-- Python `path.split('/')[-1]`: the substring after the last slash. -/
def pyLastSeg (s : String) : String :=
  String.mk ((splitChar '/' s.data).getLastD [])

/-- One hexadecimal digit, lowercase, as emitted by Python's
`json.dumps` escape sequences. -/
def hexDigit (n : Nat) : Char :=
  if n < 10 then Char.ofNat (48 + n) else Char.ofNat (87 + n)

/-- Four-digit lowercase hexadecimal rendering of a code unit. -/
def toHex4 (n : Nat) : String :=
  String.mk [hexDigit (n / 4096 % 16), hexDigit (n / 256 % 16),
             hexDigit (n / 16 % 16), hexDigit (n % 16)]

/-- A single character escaped the way Python's `json.dumps` (with its
default `ensure_ascii=True`) escapes string contents: the short escapes
for quote, backslash and common control characters, and a `\uXXXX`
sequence (a surrogate pair above the basic plane) for every other
control or non-ASCII character. -/
def escChar (c : Char) : String :=
  if c = '"' then "\\\""
  else if c = '\\' then "\\\\"
  else if c = '\n' then "\\n"
  else if c = '\t' then "\\t"
  else if c = '\r' then "\\r"
  else if c.toNat = 8 then "\\b"
  else if c.toNat = 12 then "\\f"
  else if c.toNat < 32 || 127 ≤ c.toNat then
    if c.toNat < 65536 then "\\u" ++ toHex4 c.toNat
    else
      "\\u" ++ toHex4 (55296 + (c.toNat - 65536) / 1024) ++
      "\\u" ++ toHex4 (56320 + (c.toNat - 65536) % 1024)
  else String.singleton c

/-- A JSON string literal as rendered by `json.dumps`. -/
def renderStr (s : String) : String :=
  "\"" ++ String.join (s.data.map escChar) ++ "\""

/-- Fractional digits of a rational in `[0, 1)`, with fuel.  Every
numeric value flowing through the handler is a finite decimal, so the
fuel of `renderFloat` is never exhausted on reachable values. -/
def fracDigits : Nat → Rat → String
  | 0, _ => ""
  | Nat.succ fuel, q =>
    if q = 0 then ""
    else
      let d : Int := (q * 10).floor
      toString d ++ fracDigits fuel (q * 10 - (d : Rat))

/-- Rendering of a Python `float` by `json.dumps`, on the exact-rational
model of float values: an integer-valued float prints with a trailing
`.0`, any other value prints its decimal digits. -/
def renderFloat (q : Rat) : String :=
  if q < 0 then
    "-" ++ (toString (-q).floor ++
      (if (-q) - ((-q).floor : Rat) = 0 then ".0"
       else "." ++ fracDigits 64 ((-q) - ((-q).floor : Rat))))
  else
    toString q.floor ++
      (if q - (q.floor : Rat) = 0 then ".0"
       else "." ++ fracDigits 64 (q - (q.floor : Rat)))

mutual

/-- Translation of `json.dumps(x, cls=DecimalEncoder)` from the source:
the standard serializer, except that on a `Decimal` the encoder's
`default` hook converts it to a `float` first (class `DecimalEncoder`).
Separators are Python's defaults: a comma-space between elements and a
colon-space after keys. -/
def renderDE : JVal → String
  | JVal.jnull => "null"
  | JVal.jbool true => "true"
  | JVal.jbool false => "false"
  | JVal.jint n => toString n
  | JVal.jfloat q => renderFloat q
  | JVal.jdec q => renderFloat q
  | JVal.jstr s => renderStr s
  | JVal.jarr xs => "[" ++ renderDEList xs ++ "]"
  | JVal.jobj fs => "\x7b" ++ renderDEFields fs ++ "\x7d"

/-- Array elements under `DecimalEncoder`, comma-space separated. -/
def renderDEList : List JVal → String
  | [] => ""
  | [x] => renderDE x
  | x :: y :: xs => renderDE x ++ ", " ++ renderDEList (y :: xs)

/-- Object members under `DecimalEncoder`, comma-space separated. -/
def renderDEFields : List (String × JVal) → String
  | [] => ""
  | [(k, v)] => renderStr k ++ ": " ++ renderDE v
  | (k, v) :: f :: fs => renderStr k ++ ": " ++ renderDE v ++ ", " ++ renderDEFields (f :: fs)

end

mutual

/-- Translation of plain `json.dumps(x)` from the source: identical to
`renderDE` except that a `Decimal` has no encoding and raises the
`TypeError` that `json.JSONEncoder.default` raises. -/
def renderDefault : JVal → Except String String
  | JVal.jnull => Except.ok "null"
  | JVal.jbool true => Except.ok "true"
  | JVal.jbool false => Except.ok "false"
  | JVal.jint n => Except.ok (toString n)
  | JVal.jfloat q => Except.ok (renderFloat q)
  | JVal.jdec _ => Except.error "Object of type Decimal is not JSON serializable"
  | JVal.jstr s => Except.ok (renderStr s)
  | JVal.jarr xs =>
    match renderDefaultList xs with
    | Except.ok body => Except.ok ("[" ++ body ++ "]")
    | Except.error e => Except.error e
  | JVal.jobj fs =>
    match renderDefaultFields fs with
    | Except.ok body => Except.ok ("\x7b" ++ body ++ "\x7d")
    | Except.error e => Except.error e

/-- Array elements under the default encoder. -/
def renderDefaultList : List JVal → Except String String
  | [] => Except.ok ""
  | [x] => renderDefault x
  | x :: y :: xs =>
    match renderDefault x with
    | Except.ok hd =>
      match renderDefaultList (y :: xs) with
      | Except.ok tl => Except.ok (hd ++ ", " ++ tl)
      | Except.error e => Except.error e
    | Except.error e => Except.error e

/-- Object members under the default encoder. -/
def renderDefaultFields : List (String × JVal) → Except String String
  | [] => Except.ok ""
  | [(k, v)] =>
    match renderDefault v with
    | Except.ok hd => Except.ok (renderStr k ++ ": " ++ hd)
    | Except.error e => Except.error e
  | (k, v) :: f :: fs =>
    match renderDefault v with
    | Except.ok hd =>
      match renderDefaultFields (f :: fs) with
      | Except.ok tl => Except.ok (renderStr k ++ ": " ++ hd ++ ", " ++ tl)
      | Except.error e => Except.error e
    | Except.error e => Except.error e

end

mutual

/-- Predicate: the value contains no `Decimal` anywhere, i.e. the default
encoder can serialize it. -/
def noDec : JVal → Bool
  | JVal.jdec _ => false
  | JVal.jarr xs => noDecList xs
  | JVal.jobj fs => noDecFields fs
  | _ => true

/-- List version of `noDec`. -/
def noDecList : List JVal → Bool
  | [] => true
  | x :: xs => noDec x && noDecList xs

/-- Field-list version of `noDec`. -/
def noDecFields : List (String × JVal) → Bool
  | [] => true
  | (_, v) :: fs => noDec v && noDecFields fs

end

mutual

/-- The decimal-to-float conversion performed by `DecimalEncoder.default`,
applied everywhere in a value: each `Decimal` becomes the `float` with the
same numeric value, everything else is untouched. -/
def stripDec : JVal → JVal
  | JVal.jdec q => JVal.jfloat q
  | JVal.jarr xs => JVal.jarr (stripDecList xs)
  | JVal.jobj fs => JVal.jobj (stripDecFields fs)
  | v => v

/-- List version of `stripDec`. -/
def stripDecList : List JVal → List JVal
  | [] => []
  | x :: xs => stripDec x :: stripDecList xs

/-- Field-list version of `stripDec`. -/
def stripDecFields : List (String × JVal) → List (String × JVal)
  | [] => []
  | (k, v) :: fs => (k, stripDec v) :: stripDecFields fs

end

mutual

/-- Modelled from the spec: the fixed-point/decimal representation the
underlying store gives to numeric attributes ("the underlying store may
represent numeric attributes in a fixed-point/decimal form").  A written
value comes back from `scan`/`get-by-key` with every number as a
`Decimal` of the same numeric value; all other attribute types are
preserved. -/
def toDyn : JVal → JVal
  | JVal.jint n => JVal.jdec (n : Rat)
  | JVal.jfloat q => JVal.jdec q
  | JVal.jdec q => JVal.jdec q
  | JVal.jarr xs => JVal.jarr (toDynList xs)
  | JVal.jobj fs => JVal.jobj (toDynFields fs)
  | v => v

/-- List version of `toDyn`. -/
def toDynList : List JVal → List JVal
  | [] => []
  | x :: xs => toDyn x :: toDynList xs

/-- Field-list version of `toDyn`. -/
def toDynFields : List (String × JVal) → List (String × JVal)
  | [] => []
  | (k, v) :: fs => (k, toDyn v) :: toDynFields fs

end

/-- The numeric value of a JSON number, whichever of the three Python
number types carries it. -/
def numQ : JVal → Option Rat
  | JVal.jint n => some (n : Rat)
  | JVal.jfloat q => some q
  | JVal.jdec q => some q
  | _ => none

mutual

/-- JSON equality of two values: structural equality except that numbers
compare by numeric value regardless of whether they are carried as `int`,
`float` or `Decimal` (the round-trip tolerance the spec grants to the
decimal-to-float conversion). -/
def jeq : JVal → JVal → Bool
  | JVal.jnull, JVal.jnull => true
  | JVal.jbool a, JVal.jbool b => a == b
  | JVal.jstr a, JVal.jstr b => a == b
  | JVal.jarr xs, JVal.jarr ys => jeqList xs ys
  | JVal.jobj fs, JVal.jobj gs => jeqFields fs gs
  | a, b =>
    match numQ a, numQ b with
    | some x, some y => x == y
    | _, _ => false

/-- List version of `jeq`. -/
def jeqList : List JVal → List JVal → Bool
  | [], [] => true
  | x :: xs, y :: ys => jeq x y && jeqList xs ys
  | _, _ => false

/-- Field-list version of `jeq`: same keys in the same order, JSON-equal
values. -/
def jeqFields : List (String × JVal) → List (String × JVal) → Bool
  | [], [] => true
  | (k, v) :: fs, (l, w) :: gs => k == l && jeq v w && jeqFields fs gs
  | _, _ => false

end

/-! ## The JSON parser (`json.loads`)

A recursive-descent parser over character lists, with fuel for the
nesting depth (two fuel units per consumed character are always enough,
see `parseJson`).  Error strings are the leading words of the messages
CPython's `json` module raises, without the positional suffix. -/

/-- Skip JSON whitespace. -/
def skipWs : List Char → List Char
  | c :: cs =>
    if c = ' ' || c = '\n' || c = '\t' || c = '\r' then skipWs cs else c :: cs
  | [] => []

/-- Span of leading decimal digits. -/
def takeDigits : List Char → List Char × List Char
  | [] => ([], [])
  | c :: cs =>
    if c.isDigit then
      let (ds, rest) := takeDigits cs
      (c :: ds, rest)
    else ([], c :: cs)

/-- Numeric value of a digit list. -/
def digitsToNat : List Char → Nat :=
  fun ds => ds.foldl (fun acc c => acc * 10 + (c.toNat - 48)) 0

/-- Value of one hexadecimal digit, `none` when the character is not one. -/
def hexVal (c : Char) : Option Nat :=
  if '0' ≤ c && c ≤ '9' then some (c.toNat - 48)
  else if 'a' ≤ c && c ≤ 'f' then some (c.toNat - 87)
  else if 'A' ≤ c && c ≤ 'F' then some (c.toNat - 55)
  else none

/-- Body of a JSON string literal, after the opening quote; returns the
decoded string and the input after the closing quote. -/
def parseStrAux : List Char → List Char → Except String (String × List Char)
  | acc, '"' :: rest => Except.ok (String.mk acc.reverse, rest)
  | acc, '\\' :: e :: rest =>
    if e = '"' then parseStrAux ('"' :: acc) rest
    else if e = '\\' then parseStrAux ('\\' :: acc) rest
    else if e = '/' then parseStrAux ('/' :: acc) rest
    else if e = 'n' then parseStrAux ('\n' :: acc) rest
    else if e = 't' then parseStrAux ('\t' :: acc) rest
    else if e = 'r' then parseStrAux ('\r' :: acc) rest
    else if e = 'b' then parseStrAux (Char.ofNat 8 :: acc) rest
    else if e = 'f' then parseStrAux (Char.ofNat 12 :: acc) rest
    else if e = 'u' then
      match rest with
      | h1 :: h2 :: h3 :: h4 :: rest2 =>
        match hexVal h1, hexVal h2, hexVal h3, hexVal h4 with
        | some a, some b, some c, some d =>
          parseStrAux (Char.ofNat (a * 4096 + b * 256 + c * 16 + d) :: acc) rest2
        | _, _, _, _ => Except.error "Invalid \\uXXXX escape"
      | _ => Except.error "Invalid \\uXXXX escape"
    else Except.error "Invalid \\escape"
  | acc, c :: rest =>
    if c.toNat < 32 then Except.error "Invalid control character"
    else parseStrAux (c :: acc) rest
  | _, [] => Except.error "Unterminated string starting at"

/-- A JSON number, Python style: the literal parses to an `int` when it
has neither a fraction nor an exponent, to a `float` otherwise. -/
def parseNum (cs : List Char) : Except String (JVal × List Char) :=
  let (neg, cs1) := match cs with | '-' :: r => (true, r) | _ => (false, cs)
  let (ds, cs2) := takeDigits cs1
  if ds.isEmpty then Except.error "Expecting value"
  else
    let ip : Nat := digitsToNat ds
    let fracRes : Except String (Bool × Rat × List Char) :=
      match cs2 with
      | '.' :: r =>
        let (fds, cs3) := takeDigits r
        if fds.isEmpty then Except.error "Expecting value"
        else Except.ok (true, (digitsToNat fds : Rat) / ((10 : Rat) ^ fds.length), cs3)
      | _ => Except.ok (false, 0, cs2)
    match fracRes with
    | Except.error e => Except.error e
    | Except.ok (hasFrac, fv, cs3) =>
      let expRes : Except String (Bool × Bool × Nat × List Char) :=
        match cs3 with
        | 'e' :: r =>
          let (eneg, r2) := match r with
            | '-' :: r3 => (true, r3)
            | '+' :: r3 => (false, r3)
            | _ => (false, r)
          let (eds, cs4) := takeDigits r2
          if eds.isEmpty then Except.error "Expecting value"
          else Except.ok (true, eneg, digitsToNat eds, cs4)
        | 'E' :: r =>
          let (eneg, r2) := match r with
            | '-' :: r3 => (true, r3)
            | '+' :: r3 => (false, r3)
            | _ => (false, r)
          let (eds, cs4) := takeDigits r2
          if eds.isEmpty then Except.error "Expecting value"
          else Except.ok (true, eneg, digitsToNat eds, cs4)
        | _ => Except.ok (false, false, 0, cs3)
      match expRes with
      | Except.error e => Except.error e
      | Except.ok (hasExp, eneg, ev, cs4) =>
        if hasFrac || hasExp then
          let base : Rat := (ip : Rat) + fv
          let scaled : Rat :=
            if eneg then base / ((10 : Rat) ^ ev) else base * ((10 : Rat) ^ ev)
          Except.ok (JVal.jfloat (if neg then -scaled else scaled), cs4)
        else
          Except.ok (JVal.jint (if neg then -(ip : Int) else (ip : Int)), cs4)

mutual

/-- One JSON value, fueled recursive descent. -/
def parseV : Nat → List Char → Except String (JVal × List Char)
  | 0, _ => Except.error "recursion depth exceeded"
  | Nat.succ fuel, cs =>
    match skipWs cs with
    | [] => Except.error "Expecting value"
    | 'n' :: 'u' :: 'l' :: 'l' :: rest => Except.ok (JVal.jnull, rest)
    | 't' :: 'r' :: 'u' :: 'e' :: rest => Except.ok (JVal.jbool true, rest)
    | 'f' :: 'a' :: 'l' :: 's' :: 'e' :: rest => Except.ok (JVal.jbool false, rest)
    | '"' :: rest =>
      match parseStrAux [] rest with
      | Except.ok (s, rest2) => Except.ok (JVal.jstr s, rest2)
      | Except.error e => Except.error e
    | '[' :: rest =>
      match skipWs rest with
      | ']' :: rest2 => Except.ok (JVal.jarr [], rest2)
      | rest2 =>
        match parseArrItems fuel rest2 with
        | Except.ok (xs, rest3) => Except.ok (JVal.jarr xs, rest3)
        | Except.error e => Except.error e
    | '\x7b' :: rest =>
      match skipWs rest with
      | '\x7d' :: rest2 => Except.ok (JVal.jobj [], rest2)
      | rest2 =>
        match parseObjItems fuel rest2 with
        | Except.ok (fs, rest3) => Except.ok (JVal.jobj fs, rest3)
        | Except.error e => Except.error e
    | c :: rest =>
      if c.isDigit || c = '-' then parseNum (c :: rest)
      else Except.error "Expecting value"

/-- Array elements after `[`, at a position expecting a value. -/
def parseArrItems : Nat → List Char → Except String (List JVal × List Char)
  | 0, _ => Except.error "recursion depth exceeded"
  | Nat.succ fuel, cs =>
    match parseV fuel cs with
    | Except.error e => Except.error e
    | Except.ok (v, rest) =>
      match skipWs rest with
      | ',' :: rest2 =>
        match parseArrItems fuel rest2 with
        | Except.ok (xs, rest3) => Except.ok (v :: xs, rest3)
        | Except.error e => Except.error e
      | ']' :: rest2 => Except.ok ([v], rest2)
      | _ => Except.error "Expecting ',' delimiter"

/-- Object members after an opening brace, at a position expecting a key. -/
def parseObjItems : Nat → List Char → Except String (List (String × JVal) × List Char)
  | 0, _ => Except.error "recursion depth exceeded"
  | Nat.succ fuel, cs =>
    match skipWs cs with
    | '"' :: rest =>
      match parseStrAux [] rest with
      | Except.error e => Except.error e
      | Except.ok (k, rest2) =>
        match skipWs rest2 with
        | ':' :: rest3 =>
          match parseV fuel rest3 with
          | Except.error e => Except.error e
          | Except.ok (v, rest4) =>
            match skipWs rest4 with
            | ',' :: rest5 =>
              match parseObjItems fuel rest5 with
              | Except.ok (fs, rest6) => Except.ok ((k, v) :: fs, rest6)
              | Except.error e => Except.error e
            | '\x7d' :: rest5 => Except.ok ([(k, v)], rest5)
            | _ => Except.error "Expecting ',' delimiter"
        | _ => Except.error "Expecting ':' delimiter"
    | _ => Except.error "Expecting property name enclosed in double quotes"

end

/-- Translation of `json.loads` on a string: parse one value, then allow
only trailing whitespace.  The fuel bound of two units per character plus
a constant covers the maximal nesting the input can express, so the fuel
branch is unreachable. -/
def parseJson (s : String) : Except String JVal :=
  match parseV (2 * s.data.length + 4) s.data with
  | Except.error e => Except.error e
  | Except.ok (v, rest) =>
    match skipWs rest with
    | [] => Except.ok v
    | _ => Except.error "Extra data"

/-- Python `json.loads(x)` where `x` is the value read from the event's
`body` key: a `TypeError` unless the value is a string. -/
def json_loads (v : JVal) : Except String JVal :=
  match v with
  | JVal.jstr s => parseJson s
  | JVal.jnull =>
    Except.error "the JSON object must be str, bytes or bytearray, not NoneType"
  | _ => Except.error "the JSON object must be str, bytes or bytearray"

/-! ## The DynamoDB table

The table is an external collaborator, declared in the source with
`hash_key="id"` over the single attribute `id` of type `S` (string).
Modelled from the spec as a mutable key-value collection with the three
operations the handler consumes: `scan-all`, `get-by-key(id)`,
`put(item)`. -/

/-- The collection state: an association list from the string hash key to
the stored item (stored in the store's own representation, i.e. with
numbers as `Decimal`). -/
def Store : Type := List (String × JVal)

/-- Modelled from the spec: `get-by-key(id)` — a pure read of the item
whose `id` attribute equals the key, if any. -/
def lookupStore (st : Store) (k : String) : Option JVal :=
  ((List.find? (fun p => p.1 == k)) st).map (fun p => p.2)

/-- Key-replacing insertion: the upsert a DynamoDB `PutItem` performs on
the single item with the given hash key. -/
def insertStore (st : Store) (k : String) (v : JVal) : Store :=
  (k, v) :: (List.filter (fun p => !(p.1 == k)) st)

/-- Modelled from the spec: `scan-all` — a pure read enumerating every
stored item. -/
def scanStore (st : Store) : List JVal :=
  st.map (fun p => p.2)

/-- Modelled from the spec: `put(item)` — `table.put_item(Item=body)`.
Per the table declaration in the source (hash key `id` of attribute type
`S`) a put succeeds exactly when the item is a mapping carrying a string
`id` attribute, and then upserts under that key, storing numeric
attributes in the decimal form; any other argument makes the store
client raise (boto3 parameter validation / DynamoDB validation), which the
spec files under UpstreamStoreError. -/
def put_item (st : Store) (item : JVal) : Except String Store :=
  match item with
  | JVal.jobj fields =>
    match olookup fields "id" with
    | some (JVal.jstr i) => Except.ok (insertStore st i (toDyn (JVal.jobj fields)))
    | some _ =>
      Except.error "One or more parameter values were invalid: Type mismatch for key id"
    | none =>
      Except.error "One or more parameter values were invalid: Missing the key id in the item"
  | _ => Except.error "Parameter validation failed: Invalid type for parameter Item"

/-! ## The handler -/

/-- The structured invocation result: the dict the handler returns, with
`headers` present only on the branches that set it. -/
structure Resp where
  statusCode : Nat
  headers : Option (List (String × String))
  body : String
deriving DecidableEq

/-- The `Content-Type: application/json` header mapping of the success
branches. -/
def ctJson : List (String × String) := [("Content-Type", "application/json")]

/-- The body of the `try:` block of `handler` (source lines 108-143 of
`__main__.py`, inside `lambda_code`): the three routing rules followed by
the catch-all 404.  An `Except.error` is a raised Python exception,
carrying `str(e)`. -/
def tryBody (m p : JVal) (event : JVal) (st : Store) : Except String (Resp × Store) :=
  if isStr m "GET" && isStr p "/items" then
    Except.ok
      ({ statusCode := 200, headers := some ctJson,
         body := renderDE (JVal.jarr (scanStore st)) }, st)
  else if isStr m "POST" && isStr p "/items" then
    match pyGet event "body" with
    | Except.error e => Except.error e
    | Except.ok bv =>
      match json_loads bv with
      | Except.error e => Except.error e
      | Except.ok item =>
        match put_item st item with
        | Except.error e => Except.error e
        | Except.ok st2 =>
          match renderDefault (JVal.jobj [("message", JVal.jstr "Item created")]) with
          | Except.error e => Except.error e
          | Except.ok b =>
            Except.ok ({ statusCode := 201, headers := some ctJson, body := b }, st2)
  else if isStr m "GET" then
    match p with
    | JVal.jstr ps =>
      if pyStartsWith ps "/items/" then
        match lookupStore st (pyLastSeg ps) with
        | some it =>
          Except.ok
            ({ statusCode := 200, headers := some ctJson, body := renderDE it }, st)
        | none =>
          match renderDefault (JVal.jobj [("error", JVal.jstr "Item not found")]) with
          | Except.error e => Except.error e
          | Except.ok b =>
            Except.ok ({ statusCode := 404, headers := none, body := b }, st)
      else
        match renderDefault (JVal.jobj [("error", JVal.jstr "Not found")]) with
        | Except.error e => Except.error e
        | Except.ok b =>
          Except.ok ({ statusCode := 404, headers := none, body := b }, st)
    | _ => Except.error "'JVal' object has no attribute 'startswith'"
  else
    match renderDefault (JVal.jobj [("error", JVal.jstr "Not found")]) with
    | Except.error e => Except.error e
    | Except.ok b =>
      Except.ok ({ statusCode := 404, headers := none, body := b }, st)

/-- Translation of `handler(event, context)` from the source.  The two
extractions `event['requestContext']['http']['method']` and
`event['requestContext']['http']['path']` happen before the `try:` block;
the `except Exception` clause converts an exception raised inside the
block into a 500 response whose body is `json.dumps` of a dict holding
`str(e)` under the `error` key.  An `Except.error` result is an exception
the handler raised past its own boundary. -/
def handler (event : JVal) (st : Store) : Except String (Resp × Store) :=
  match pyGet3 event "requestContext" "http" "method" with
  | Except.error e => Except.error e
  | Except.ok m =>
    match pyGet3 event "requestContext" "http" "path" with
    | Except.error e => Except.error e
    | Except.ok p =>
      match tryBody m p event st with
      | Except.ok r => Except.ok r
      | Except.error e =>
        match renderDefault (JVal.jobj [("error", JVal.jstr e)]) with
        | Except.ok b =>
          Except.ok ({ statusCode := 500, headers := none, body := b }, st)
        | Except.error e2 => Except.error e2

/-- A well-formed invocation event, the shape the spec gives for the
input: method and path under `requestContext.http`, and a `body` member
that is a string or `None`. -/
def mkEvent (m p : String) (b : JVal) : JVal :=
  JVal.jobj
    [("requestContext",
        JVal.jobj [("http",
          JVal.jobj [("method", JVal.jstr m), ("path", JVal.jstr p)])]),
     ("body", b)]

/-- The event of a POST to `/items` carrying a request body. -/
def postEvent (bs : String) : JVal :=
  mkEvent "POST" "/items" (JVal.jstr bs)

/-- The pair of (parsed item, its string id) a POST body yields when it is
a body the store accepts; `none` when the POST of this body would end in
an error response. -/
def parsedItem (bs : String) : Option (JVal × String) :=
  match parseJson bs with
  | Except.ok (JVal.jobj fs) =>
    match olookup fs "id" with
    | some (JVal.jstr i) => some (JVal.jobj fs, i)
    | _ => none
  | _ => none

/-- The fixed 201 response of a successful POST. -/
def createdResp : Resp :=
  { statusCode := 201, headers := some ctJson,
    body := "\x7b\"message\": \"Item created\"\x7d" }

/-- The fixed 404 response of a GET for an absent id. -/
def itemAbsentResp : Resp :=
  { statusCode := 404, headers := none,
    body := "\x7b\"error\": \"Item not found\"\x7d" }

/-- The fixed 404 response of the catch-all route. -/
def routeAbsentResp : Resp :=
  { statusCode := 404, headers := none,
    body := "\x7b\"error\": \"Not found\"\x7d" }

/-- The 200 response returning one stored item. -/
def itemResp (it : JVal) : Resp :=
  { statusCode := 200, headers := some ctJson, body := renderDE it }

/-- The 200 response of the scan route. -/
def scanResp (st : Store) : Resp :=
  { statusCode := 200, headers := some ctJson,
    body := renderDE (JVal.jarr (scanStore st)) }

/-- The body of the 500 response the except-clause produces for the
description `m`: `json.dumps` of the one-entry error dict. -/
def errBody (m : String) : String :=
  ((renderDefault (JVal.jobj [("error", JVal.jstr m)])).toOption).getD ""

/-- The 500 response converting the exception description `m`. -/
def errResp (m : String) : Resp :=
  { statusCode := 500, headers := none, body := errBody m }

/-! ## String and character-list lemmas -/

theorem chStarts_self_append (pre rest : List Char) : chStarts pre (pre ++ rest) = true := by
  induction pre with
  | nil => rfl
  | cons a as ih => simp [chStarts, ih]

theorem pyStartsWith_append (pre rest : String) : pyStartsWith (pre ++ rest) pre = true := by
  unfold pyStartsWith
  rw [String.data_append]
  exact chStarts_self_append _ _

theorem splitChar_ne_nil (c : Char) (l : List Char) : splitChar c l ≠ [] := by
  cases l with
  | nil => simp [splitChar]
  | cons x xs =>
    simp only [splitChar]
    split
    · simp
    · split <;> simp

theorem two_le_length_splitChar (c : Char) (l : List Char) (h : c ∈ l) :
    2 ≤ (splitChar c l).length := by
  induction l with
  | nil => cases h
  | cons x xs ih =>
    simp only [splitChar]
    by_cases hx : x = c
    · rw [if_pos hx]
      cases hsp : splitChar c xs with
      | nil => exact absurd hsp (splitChar_ne_nil c xs)
      | cons g gs => simp
    · rw [if_neg hx]
      have hmem : c ∈ xs := by
        rcases List.mem_cons.mp h with h1 | h1
        · exact absurd h1.symm hx
        · exact h1
      cases hsp : splitChar c xs with
      | nil => exact absurd hsp (splitChar_ne_nil c xs)
      | cons g gs =>
        have := ih hmem
        rw [hsp] at this
        simpa using this

theorem getLastD_splitChar_append (c : Char) (xs ys : List Char) :
    (splitChar c (xs ++ c :: ys)).getLastD [] = (splitChar c ys).getLastD [] := by
  induction xs with
  | nil =>
    simp only [List.nil_append, splitChar, if_pos rfl]
    cases hsp : splitChar c ys with
    | nil => exact absurd hsp (splitChar_ne_nil c ys)
    | cons g gs => simp [List.getLastD_cons]
  | cons x xs ih =>
    simp only [List.cons_append, splitChar]
    by_cases hx : x = c
    · rw [if_pos hx]
      cases hsp : splitChar c (xs ++ c :: ys) with
      | nil => exact absurd hsp (splitChar_ne_nil c _)
      | cons g gs =>
        rw [hsp] at ih
        simpa [List.getLastD_cons] using ih
    · rw [if_neg hx]
      cases hsp : splitChar c (xs ++ c :: ys) with
      | nil => exact absurd hsp (splitChar_ne_nil c _)
      | cons g gs =>
        have hlen := two_le_length_splitChar c (xs ++ c :: ys) (by simp)
        rw [hsp] at hlen ih
        cases gs with
        | nil => simp at hlen
        | cons g2 gs2 => simpa [List.getLastD_cons] using ih

theorem splitChar_of_not_mem (c : Char) (l : List Char) (h : c ∉ l) : splitChar c l = [l] := by
  induction l with
  | nil => rfl
  | cons x xs ih =>
    have hx : ¬ x = c := fun he => h (he ▸ List.mem_cons_self x xs)
    have hxs : c ∉ xs := fun hm => h (List.mem_cons_of_mem x hm)
    simp only [splitChar, if_neg hx, ih hxs]

theorem pyLastSeg_concat (i : String) (h : '/' ∉ i.data) :
    pyLastSeg ("/items/" ++ i) = i := by
  unfold pyLastSeg
  rw [String.data_append]
  have h1 : ("/items/" : String).data ++ i.data =
      ['/', 'i', 't', 'e', 'm', 's'] ++ '/' :: i.data := rfl
  rw [h1, getLastD_splitChar_append, splitChar_of_not_mem _ _ h]
  cases i
  rfl

/-! ## Store lemmas -/

theorem lookup_insert_self (st : Store) (k : String) (v : JVal) :
    lookupStore (insertStore st k v) k = some v := by
  simp [lookupStore, insertStore, List.find?_cons_of_pos]

theorem lookup_filter_ne (st : Store) (k k2 : String) (h : ¬ k2 = k) :
    lookupStore (List.filter (fun p => !(p.1 == k)) st) k2 = lookupStore st k2 := by
  induction st with
  | nil => rfl
  | cons p ps ih =>
    obtain ⟨a, b⟩ := p
    by_cases ha : a = k
    · subst ha
      have hne : ¬ a = k2 := fun he => h (he ▸ rfl)
      simp only [lookupStore, List.filter_cons]
      simp only [beq_self_eq_true, Bool.not_true, Bool.false_eq_true, if_false]
      rw [List.find?_cons_of_neg]
      · exact ih
      · simp [hne]
    · simp only [lookupStore, List.filter_cons]
      have : (!(a == k)) = true := by simp [ha]
      rw [if_pos this]
      by_cases hk : a = k2
      · subst hk
        simp [List.find?_cons_of_pos, lookupStore]
      · show lookupStore ((a, b) :: List.filter (fun p => !(p.1 == k)) ps) k2 =
            lookupStore ((a, b) :: ps) k2
        unfold lookupStore
        rw [List.find?_cons_of_neg _ (by simp [hk]), List.find?_cons_of_neg _ (by simp [hk])]
        exact ih

theorem lookup_insert_ne (st : Store) (k : String) (v : JVal) (k2 : String) (h : ¬ k2 = k) :
    lookupStore (insertStore st k v) k2 = lookupStore st k2 := by
  have hk : ¬ k = k2 := fun he => h he.symm
  simp only [insertStore, lookupStore]
  rw [List.find?_cons_of_neg]
  · exact lookup_filter_ne st k k2 h
  · simp [hk]

theorem lookup_mem_scan (st : Store) (k : String) (v : JVal)
    (h : lookupStore st k = some v) : v ∈ scanStore st := by
  unfold lookupStore at h
  rcases Option.map_eq_some'.mp h with ⟨p, hp, hv⟩
  have := List.mem_of_find?_eq_some hp
  exact hv ▸ List.mem_map_of_mem (fun q => q.2) this

/-! ## Serialization lemmas: the `DecimalEncoder` output is exactly the
default-encoder output of the decimal-free transform of the value. -/

mutual

theorem renderDefault_stripDec : ∀ v, renderDefault (stripDec v) = Except.ok (renderDE v)
  | JVal.jnull => rfl
  | JVal.jbool true => rfl
  | JVal.jbool false => rfl
  | JVal.jint _ => rfl
  | JVal.jfloat _ => rfl
  | JVal.jdec _ => rfl
  | JVal.jstr _ => rfl
  | JVal.jarr xs => by
    show renderDefault (JVal.jarr (stripDecList xs)) = Except.ok (renderDE (JVal.jarr xs))
    unfold renderDefault renderDE
    rw [renderDefaultList_stripDec xs]
  | JVal.jobj fs => by
    show renderDefault (JVal.jobj (stripDecFields fs)) = Except.ok (renderDE (JVal.jobj fs))
    unfold renderDefault renderDE
    rw [renderDefaultFields_stripDec fs]

theorem renderDefaultList_stripDec :
    ∀ xs, renderDefaultList (stripDecList xs) = Except.ok (renderDEList xs)
  | [] => rfl
  | [x] => by
    show renderDefaultList [stripDec x] = Except.ok (renderDEList [x])
    unfold renderDefaultList renderDEList
    rw [renderDefault_stripDec x]
  | x :: y :: xs => by
    show renderDefaultList (stripDec x :: stripDec y :: stripDecList xs) =
      Except.ok (renderDEList (x :: y :: xs))
    unfold renderDefaultList renderDEList
    rw [renderDefault_stripDec x]
    have h2 : renderDefaultList (stripDec y :: stripDecList xs) =
        Except.ok (renderDEList (y :: xs)) := renderDefaultList_stripDec (y :: xs)
    rw [h2]

theorem renderDefaultFields_stripDec :
    ∀ fs, renderDefaultFields (stripDecFields fs) = Except.ok (renderDEFields fs)
  | [] => rfl
  | [(k, v)] => by
    show renderDefaultFields [(k, stripDec v)] = Except.ok (renderDEFields [(k, v)])
    unfold renderDefaultFields renderDEFields
    rw [renderDefault_stripDec v]
  | (k, v) :: f :: fs => by
    show renderDefaultFields ((k, stripDec v) :: stripDecFields (f :: fs)) =
      Except.ok (renderDEFields ((k, v) :: f :: fs))
    obtain ⟨k2, v2⟩ := f
    show renderDefaultFields ((k, stripDec v) :: (k2, stripDec v2) :: stripDecFields fs) =
      Except.ok (renderDEFields ((k, v) :: (k2, v2) :: fs))
    unfold renderDefaultFields renderDEFields
    rw [renderDefault_stripDec v]
    have h2 : renderDefaultFields ((k2, stripDec v2) :: stripDecFields fs) =
        Except.ok (renderDEFields ((k2, v2) :: fs)) := renderDefaultFields_stripDec ((k2, v2) :: fs)
    rw [h2]

end

mutual

theorem noDec_stripDec : ∀ v, noDec (stripDec v) = true
  | JVal.jnull => rfl
  | JVal.jbool _ => rfl
  | JVal.jint _ => rfl
  | JVal.jfloat _ => rfl
  | JVal.jdec _ => rfl
  | JVal.jstr _ => rfl
  | JVal.jarr xs => by
    show noDecList (stripDecList xs) = true
    exact noDecList_stripDec xs
  | JVal.jobj fs => by
    show noDecFields (stripDecFields fs) = true
    exact noDecFields_stripDec fs

theorem noDecList_stripDec : ∀ xs, noDecList (stripDecList xs) = true
  | [] => rfl
  | x :: xs => by
    show (noDec (stripDec x) && noDecList (stripDecList xs)) = true
    rw [noDec_stripDec x, noDecList_stripDec xs]
    rfl

theorem noDecFields_stripDec : ∀ fs, noDecFields (stripDecFields fs) = true
  | [] => rfl
  | (_, v) :: fs => by
    show (noDec (stripDec v) && noDecFields (stripDecFields fs)) = true
    rw [noDec_stripDec v, noDecFields_stripDec fs]
    rfl

end

/-! ## JSON equality of the stored round-trip with the written value -/

mutual

theorem jeq_stripDec_toDyn : ∀ v, jeq (stripDec (toDyn v)) v = true
  | JVal.jnull => rfl
  | JVal.jbool b => by simp [toDyn, stripDec, jeq]
  | JVal.jint n => by simp [toDyn, stripDec, jeq, numQ]
  | JVal.jfloat q => by simp [toDyn, stripDec, jeq, numQ]
  | JVal.jdec q => by simp [toDyn, stripDec, jeq, numQ]
  | JVal.jstr s => by simp [toDyn, stripDec, jeq]
  | JVal.jarr xs => by
    show jeq (JVal.jarr (stripDecList (toDynList xs))) (JVal.jarr xs) = true
    unfold jeq
    exact jeqList_stripDec_toDyn xs
  | JVal.jobj fs => by
    show jeq (JVal.jobj (stripDecFields (toDynFields fs))) (JVal.jobj fs) = true
    unfold jeq
    exact jeqFields_stripDec_toDyn fs

theorem jeqList_stripDec_toDyn : ∀ xs, jeqList (stripDecList (toDynList xs)) xs = true
  | [] => rfl
  | x :: xs => by
    show (jeq (stripDec (toDyn x)) x && jeqList (stripDecList (toDynList xs)) xs) = true
    rw [jeq_stripDec_toDyn x, jeqList_stripDec_toDyn xs]
    rfl

theorem jeqFields_stripDec_toDyn : ∀ fs, jeqFields (stripDecFields (toDynFields fs)) fs = true
  | [] => rfl
  | (k, v) :: fs => by
    show (k == k && jeq (stripDec (toDyn v)) v && jeqFields (stripDecFields (toDynFields fs)) fs) = true
    rw [jeq_stripDec_toDyn v, jeqFields_stripDec_toDyn fs]
    simp

end

/-! ## Handler-level lemmas -/
theorem renderDefault_errObj (m : String) :
    renderDefault (JVal.jobj [("error", JVal.jstr m)]) = Except.ok (errBody m) := rfl

theorem handler_mkEvent (m p : String) (b : JVal) (st : Store) :
    handler (mkEvent m p b) st =
      match tryBody (JVal.jstr m) (JVal.jstr p) (mkEvent m p b) st with
      | Except.ok r => Except.ok r
      | Except.error e => Except.ok (errResp e, st) := by
  show (match tryBody (JVal.jstr m) (JVal.jstr p) (mkEvent m p b) st with
        | Except.ok r => Except.ok r
        | Except.error e =>
          match renderDefault (JVal.jobj [("error", JVal.jstr e)]) with
          | Except.ok bb =>
            Except.ok ({ statusCode := 500, headers := none, body := bb }, st)
          | Except.error e2 => Except.error e2) = _
  cases tryBody (JVal.jstr m) (JVal.jstr p) (mkEvent m p b) st with
  | ok r => rfl
  | error e =>
    show (match renderDefault (JVal.jobj [("error", JVal.jstr e)]) with
          | Except.ok bb =>
            Except.ok ({ statusCode := 500, headers := none, body := bb }, st)
          | Except.error e2 => Except.error e2) = Except.ok (errResp e, st)
    rw [renderDefault_errObj]
    rfl

theorem tryBody_get_sub_hit (ps : String) (ev : JVal) (st : Store) (it : JVal)
    (hs : pyStartsWith ps "/items/" = true)
    (hl : lookupStore st (pyLastSeg ps) = some it) :
    tryBody (JVal.jstr "GET") (JVal.jstr ps) ev st = Except.ok (itemResp it, st) := by
  have hne : (ps == "/items") = false := by
    have : ¬ ps = "/items" := by
      intro he
      subst he
      exact absurd hs (by decide)
    simp [this]
  unfold tryBody
  simp only [isStr, hne, Bool.and_false, Bool.false_eq_true, if_false, hs, if_true, hl]
  rfl

theorem tryBody_get_sub_miss (ps : String) (ev : JVal) (st : Store)
    (hs : pyStartsWith ps "/items/" = true)
    (hl : lookupStore st (pyLastSeg ps) = none) :
    tryBody (JVal.jstr "GET") (JVal.jstr ps) ev st = Except.ok (itemAbsentResp, st) := by
  have hne : (ps == "/items") = false := by
    have hx : ¬ ps = "/items" := by
      intro he
      subst he
      exact absurd hs (by decide)
    simp [hx]
  unfold tryBody
  simp only [isStr, hne, Bool.and_false, Bool.false_eq_true, if_false, hs, if_true, hl]
  rfl

theorem tryBody_no_route (m ps : String) (ev : JVal) (st : Store)
    (h1 : ¬ (m = "GET" ∧ ps = "/items"))
    (h2 : ¬ (m = "POST" ∧ ps = "/items"))
    (h3 : ¬ (m = "GET" ∧ pyStartsWith ps "/items/" = true)) :
    tryBody (JVal.jstr m) (JVal.jstr ps) ev st = Except.ok (routeAbsentResp, st) := by
  unfold tryBody
  by_cases hm : m = "GET"
  · subst hm
    have hps : (ps == "/items") = false := by
      simp only [beq_eq_false_iff_ne, ne_eq]
      exact fun he => h1 ⟨rfl, he⟩
    have hsw : pyStartsWith ps "/items/" = false := by
      cases hx : pyStartsWith ps "/items/" with
      | true => exact absurd ⟨rfl, hx⟩ h3
      | false => rfl
    simp only [isStr, hps, Bool.and_false, Bool.false_eq_true, if_false, hsw, if_true]
    rfl
  · by_cases hm2 : m = "POST"
    · subst hm2
      have hps : (ps == "/items") = false := by
        simp only [beq_eq_false_iff_ne, ne_eq]
        exact fun he => h2 ⟨rfl, he⟩
      simp only [isStr, hps, Bool.and_false, Bool.false_eq_true, if_false]
      rfl
    · have hg : (m == "GET") = false := by
        simp only [beq_eq_false_iff_ne, ne_eq]
        exact hm
      have hp2 : (m == "POST") = false := by
        simp only [beq_eq_false_iff_ne, ne_eq]
        exact hm2
      simp only [isStr, hg, hp2, Bool.false_and, Bool.false_eq_true, if_false]
      rfl

theorem parsedItem_some (bs : String) (it : JVal) (i : String)
    (h : parsedItem bs = some (it, i)) :
    ∃ fs, parseJson bs = Except.ok (JVal.jobj fs) ∧ it = JVal.jobj fs ∧
      olookup fs "id" = some (JVal.jstr i) := by
  unfold parsedItem at h
  split at h
  case h_1 fs heq =>
    split at h
    case h_1 i2 heq2 =>
      injection h with h
      have h1 : JVal.jobj fs = it := congrArg Prod.fst h
      have h2 : i2 = i := congrArg Prod.snd h
      subst h2
      exact ⟨fs, heq, h1.symm, heq2⟩
    case h_2 => exact Option.noConfusion h
  case h_2 => exact Option.noConfusion h

theorem tryBody_post (bs : String) (st : Store) (it : JVal) (i : String)
    (h : parsedItem bs = some (it, i)) :
    tryBody (JVal.jstr "POST") (JVal.jstr "/items") (postEvent bs) st =
      Except.ok (createdResp, insertStore st i (toDyn it)) := by
  obtain ⟨fs, heq, hit, hid⟩ := parsedItem_some bs it i h
  subst hit
  have e1 : tryBody (JVal.jstr "POST") (JVal.jstr "/items") (postEvent bs) st =
      (match parseJson bs with
       | Except.error e => Except.error e
       | Except.ok item =>
         match put_item st item with
         | Except.error e => Except.error e
         | Except.ok st2 => Except.ok (createdResp, st2)) := rfl
  rw [e1, heq]
  have e2 : put_item st (JVal.jobj fs) =
      Except.ok (insertStore st i (toDyn (JVal.jobj fs))) := by
    show (match olookup fs "id" with
          | some (JVal.jstr i2) => Except.ok (insertStore st i2 (toDyn (JVal.jobj fs)))
          | some _ =>
            Except.error "One or more parameter values were invalid: Type mismatch for key id"
          | none =>
            Except.error "One or more parameter values were invalid: Missing the key id in the item") =
      Except.ok (insertStore st i (toDyn (JVal.jobj fs)))
    rw [hid]
  show (match put_item st (JVal.jobj fs) with
        | Except.error e => Except.error e
        | Except.ok st2 => Except.ok (createdResp, st2)) =
    Except.ok (createdResp, insertStore st i (toDyn (JVal.jobj fs)))
  rw [e2]


theorem tryBody_get_items (ev : JVal) (st : Store) :
    tryBody (JVal.jstr "GET") (JVal.jstr "/items") ev st =
      Except.ok (scanResp st, st) := rfl

theorem handler_tryError (m p : String) (b : JVal) (st : Store) (e : String)
    (h : tryBody (JVal.jstr m) (JVal.jstr p) (mkEvent m p b) st = Except.error e) :
    handler (mkEvent m p b) st = Except.ok (errResp e, st) := by
  rw [handler_mkEvent, h]

theorem handler_post (bs : String) (st : Store) (it : JVal) (i : String)
    (h : parsedItem bs = some (it, i)) :
    handler (postEvent bs) st = Except.ok (createdResp, insertStore st i (toDyn it)) := by
  show handler (mkEvent "POST" "/items" (JVal.jstr bs)) st = _
  have ht : tryBody (JVal.jstr "POST") (JVal.jstr "/items")
      (mkEvent "POST" "/items" (JVal.jstr bs)) st =
      Except.ok (createdResp, insertStore st i (toDyn it)) := tryBody_post bs st it i h
  rw [handler_mkEvent, ht]

theorem handler_get_items (b : JVal) (st : Store) :
    handler (mkEvent "GET" "/items" b) st = Except.ok (scanResp st, st) := by
  rw [handler_mkEvent, tryBody_get_items]

theorem handler_get_hit (p : String) (b : JVal) (st : Store) (it : JVal)
    (hs : pyStartsWith p "/items/" = true)
    (hl : lookupStore st (pyLastSeg p) = some it) :
    handler (mkEvent "GET" p b) st = Except.ok (itemResp it, st) := by
  rw [handler_mkEvent, tryBody_get_sub_hit p _ st it hs hl]

theorem handler_get_miss (p : String) (b : JVal) (st : Store)
    (hs : pyStartsWith p "/items/" = true)
    (hl : lookupStore st (pyLastSeg p) = none) :
    handler (mkEvent "GET" p b) st = Except.ok (itemAbsentResp, st) := by
  rw [handler_mkEvent, tryBody_get_sub_miss p _ st hs hl]

theorem handler_no_route (m p : String) (b : JVal) (st : Store)
    (h1 : ¬ (m = "GET" ∧ p = "/items"))
    (h2 : ¬ (m = "POST" ∧ p = "/items"))
    (h3 : ¬ (m = "GET" ∧ pyStartsWith p "/items/" = true)) :
    handler (mkEvent m p b) st = Except.ok (routeAbsentResp, st) := by
  rw [handler_mkEvent, tryBody_no_route m p _ st h1 h2 h3]

theorem put_item_invalid (st : Store) (item : JVal)
    (h : ∀ fs i, item = JVal.jobj fs → ¬ olookup fs "id" = some (JVal.jstr i)) :
    ∃ e, put_item st item = Except.error e := by
  cases item with
  | jobj fs =>
    have e0 : put_item st (JVal.jobj fs) =
        (match olookup fs "id" with
         | some (JVal.jstr i2) => Except.ok (insertStore st i2 (toDyn (JVal.jobj fs)))
         | some _ =>
           Except.error "One or more parameter values were invalid: Type mismatch for key id"
         | none =>
           Except.error "One or more parameter values were invalid: Missing the key id in the item") := rfl
    cases hk : olookup fs "id" with
    | none =>
      exact ⟨_, by rw [e0, hk]⟩
    | some v =>
      cases v with
      | jstr i => exact absurd hk (h fs i rfl)
      | jnull => exact ⟨_, by rw [e0, hk]⟩
      | jbool b => exact ⟨_, by rw [e0, hk]⟩
      | jint n => exact ⟨_, by rw [e0, hk]⟩
      | jfloat q => exact ⟨_, by rw [e0, hk]⟩
      | jdec q => exact ⟨_, by rw [e0, hk]⟩
      | jarr xs => exact ⟨_, by rw [e0, hk]⟩
      | jobj gs => exact ⟨_, by rw [e0, hk]⟩
  | jnull => exact ⟨_, rfl⟩
  | jbool b => exact ⟨_, rfl⟩
  | jint n => exact ⟨_, rfl⟩
  | jfloat q => exact ⟨_, rfl⟩
  | jdec q => exact ⟨_, rfl⟩
  | jstr s => exact ⟨_, rfl⟩
  | jarr xs => exact ⟨_, rfl⟩

theorem handler_post_invalid (bs : String) (st : Store)
    (h : parsedItem bs = none) :
    ∃ e, handler (postEvent bs) st = Except.ok (errResp e, st) := by
  have e1 : tryBody (JVal.jstr "POST") (JVal.jstr "/items") (postEvent bs) st =
      (match parseJson bs with
       | Except.error e => Except.error e
       | Except.ok item =>
         match put_item st item with
         | Except.error e => Except.error e
         | Except.ok st2 => Except.ok (createdResp, st2)) := rfl
  unfold parsedItem at h
  cases hp : parseJson bs with
  | error e =>
    have ht : tryBody (JVal.jstr "POST") (JVal.jstr "/items") (postEvent bs) st =
        Except.error e := by rw [e1, hp]
    exact ⟨e, handler_tryError "POST" "/items" (JVal.jstr bs) st e ht⟩
  | ok item =>
    rw [hp] at h
    have hinv : ∀ fs i, item = JVal.jobj fs → ¬ olookup fs "id" = some (JVal.jstr i) := by
      intro fs i hfs hk
      subst hfs
      have h2 : (match olookup fs "id" with
                 | some (JVal.jstr i2) => some (JVal.jobj fs, i2)
                 | _ => none) = (none : Option (JVal × String)) := h
      rw [hk] at h2
      exact Option.noConfusion h2
    obtain ⟨e, he⟩ := put_item_invalid st item hinv
    have ht : tryBody (JVal.jstr "POST") (JVal.jstr "/items") (postEvent bs) st =
        Except.error e := by
      rw [e1, hp]
      show (match put_item st item with
            | Except.error e2 => Except.error e2
            | Except.ok st2 => Except.ok (createdResp, st2)) = Except.error e
      rw [he]
    exact ⟨e, handler_tryError "POST" "/items" (JVal.jstr bs) st e ht⟩

theorem handler_get_cases (st : Store) (p : String) (b : JVal) :
    (p = "/items" ∧ handler (mkEvent "GET" p b) st = Except.ok (scanResp st, st)) ∨
    (pyStartsWith p "/items/" = true ∧ ∃ it, lookupStore st (pyLastSeg p) = some it ∧
        handler (mkEvent "GET" p b) st = Except.ok (itemResp it, st)) ∨
    (pyStartsWith p "/items/" = true ∧ lookupStore st (pyLastSeg p) = none ∧
        handler (mkEvent "GET" p b) st = Except.ok (itemAbsentResp, st)) ∨
    (¬ p = "/items" ∧ ¬ pyStartsWith p "/items/" = true ∧
        handler (mkEvent "GET" p b) st = Except.ok (routeAbsentResp, st)) := by
  by_cases h1 : p = "/items"
  · subst h1
    exact Or.inl ⟨rfl, handler_get_items b st⟩
  · by_cases h2 : pyStartsWith p "/items/" = true
    · cases hl : lookupStore st (pyLastSeg p) with
      | some it => exact Or.inr (Or.inl ⟨h2, ⟨it, rfl, handler_get_hit p b st it h2 hl⟩⟩)
      | none => exact Or.inr (Or.inr (Or.inl ⟨h2, rfl, handler_get_miss p b st h2 hl⟩))
    · refine Or.inr (Or.inr (Or.inr ⟨h1, h2, ?_⟩))
      apply handler_no_route
      · exact fun hc => h1 hc.2
      · exact fun hc => absurd hc.1 (by decide)
      · exact fun hc => h2 hc.2

/-! ## Repeated POSTs (for the enumeration claim) -/

/-- One POST invocation folded into the store: the state the collection is
in after the handler processed the body `bs`. -/
def postStep (st : Store) (bs : String) : Store :=
  match handler (postEvent bs) st with
  | Except.ok (_, st2) => st2
  | Except.error _ => st

/-- The collection state after a sequence of POST invocations. -/
def runPosts (st : Store) (bodies : List String) : Store :=
  bodies.foldl postStep st

/-- Two POST bodies carry distinct ids (vacuously true when either body
would not be stored). -/
def differentIds (b1 b2 : String) : Prop :=
  ∀ it1 i1 it2 i2, parsedItem b1 = some (it1, i1) → parsedItem b2 = some (it2, i2) →
    ¬ i1 = i2

theorem postStep_parsed (bs : String) (st : Store) (it : JVal) (i : String)
    (h : parsedItem bs = some (it, i)) :
    postStep st bs = insertStore st i (toDyn it) := by
  unfold postStep
  rw [handler_post bs st it i h]

theorem postStep_invalid (bs : String) (st : Store) (h : parsedItem bs = none) :
    postStep st bs = st := by
  obtain ⟨e, he⟩ := handler_post_invalid bs st h
  unfold postStep
  rw [he]

theorem runPosts_preserve (bodies : List String) (st : Store) (i : String) (v : JVal)
    (h : lookupStore st i = some v)
    (hb : ∀ b ∈ bodies, ∀ it2 i2, parsedItem b = some (it2, i2) → ¬ i2 = i) :
    lookupStore (runPosts st bodies) i = some v := by
  induction bodies generalizing st with
  | nil => exact h
  | cons b rest ih =>
    show lookupStore (runPosts (postStep st b) rest) i = some v
    cases hp : parsedItem b with
    | none =>
      rw [postStep_invalid b st hp]
      exact ih st h (fun b2 hb2 => hb b2 (List.mem_cons_of_mem b hb2))
    | some pr =>
      obtain ⟨it2, i2⟩ := pr
      rw [postStep_parsed b st it2 i2 hp]
      have hne : ¬ i = i2 := fun he =>
        hb b (List.mem_cons_self b rest) it2 i2 hp he.symm
      exact ih (insertStore st i2 (toDyn it2))
        (by rw [lookup_insert_ne st i2 (toDyn it2) i hne]; exact h)
        (fun b2 hb2 => hb b2 (List.mem_cons_of_mem b hb2))

theorem runPosts_contains (bodies : List String) (st : Store) (b : String)
    (it : JVal) (i : String)
    (hpw : List.Pairwise differentIds bodies)
    (hb : b ∈ bodies) (hp : parsedItem b = some (it, i)) :
    lookupStore (runPosts st bodies) i = some (toDyn it) := by
  induction bodies generalizing st with
  | nil => cases hb
  | cons b0 rest ih =>
    show lookupStore (runPosts (postStep st b0) rest) i = some (toDyn it)
    rcases List.mem_cons.mp hb with hb1 | hb1
    · subst hb1
      rw [postStep_parsed b st it i hp]
      apply runPosts_preserve rest _ i (toDyn it) (lookup_insert_self st i (toDyn it))
      intro b2 hb2 it2 i2 hp2 he
      exact (List.pairwise_cons.mp hpw).1 b2 hb2 it i it2 i2 hp hp2 he.symm
    · exact ih (postStep st b0) (List.pairwise_cons.mp hpw).2 hb1

/-! ## The claims -/

/-- C1, counterexample: the handler does raise past its own boundary on an
event without a `requestContext` field, because the method/path extraction
happens before the `try:` block — the invocation with the empty-object
event ends in an uncaught `KeyError` instead of a 500 response. -/
theorem claim1_counterexample :
    handler (JVal.jobj []) [] = Except.error "'requestContext'" := rfl

/-- C1 (amended): for every event on which the extraction of
`requestContext.http.method` and `requestContext.http.path` (which the
source performs before the `try:` block) succeeds, the handler never
raises: it returns a response, and whenever the dispatch block raises an
exception with description `e`, that response is statusCode 500 with body
`{"error": e}`. -/
theorem claim1_boundary (event : JVal) (st : Store) (m p : JVal)
    (hm : pyGet3 event "requestContext" "http" "method" = Except.ok m)
    (hp : pyGet3 event "requestContext" "http" "path" = Except.ok p) :
    (∃ r st2, handler event st = Except.ok (r, st2)) ∧
    (∀ e, tryBody m p event st = Except.error e →
      handler event st = Except.ok (errResp e, st)) := by
  have hh : handler event st =
      (match tryBody m p event st with
       | Except.ok r => Except.ok r
       | Except.error e =>
         match renderDefault (JVal.jobj [("error", JVal.jstr e)]) with
         | Except.ok b =>
           Except.ok ({ statusCode := 500, headers := none, body := b }, st)
         | Except.error e2 => Except.error e2) := by
    unfold handler
    rw [hm, hp]
  constructor
  · cases ht : tryBody m p event st with
    | ok r =>
      rw [hh, ht]
      exact ⟨r.1, r.2, rfl⟩
    | error e =>
      refine ⟨errResp e, st, ?_⟩
      rw [hh, ht]
      show (match renderDefault (JVal.jobj [("error", JVal.jstr e)]) with
            | Except.ok b =>
              Except.ok ({ statusCode := 500, headers := none, body := b }, st)
            | Except.error e2 => Except.error e2) = Except.ok (errResp e, st)
      rw [renderDefault_errObj]
      rfl
  · intro e he
    rw [hh, he]
    show (match renderDefault (JVal.jobj [("error", JVal.jstr e)]) with
          | Except.ok b =>
            Except.ok ({ statusCode := 500, headers := none, body := b }, st)
          | Except.error e2 => Except.error e2) = Except.ok (errResp e, st)
    rw [renderDefault_errObj]
    rfl

/-- Witness for C1 (amended) at a concrete input: a POST to `/items` whose
event carries `body: None` makes `json.loads` raise inside the dispatch
block, and the handler converts it into the 500 response. -/
theorem claim1_boundary_witness :
    pyGet3 (mkEvent "POST" "/items" JVal.jnull) "requestContext" "http" "method" =
      Except.ok (JVal.jstr "POST") ∧
    handler (mkEvent "POST" "/items" JVal.jnull) [] =
      Except.ok
        (errResp "the JSON object must be str, bytes or bytearray, not NoneType", []) := by
  refine ⟨rfl, ?_⟩
  exact (claim1_boundary (mkEvent "POST" "/items" JVal.jnull) [] (JVal.jstr "POST")
    (JVal.jstr "/items") rfl rfl).2 _ rfl

/-- C3: a request whose method/path combination matches none of the three
routing rules — not GET `/items`, not POST `/items`, and not a GET whose
path starts with `/items/` — is answered by exactly the catch-all 404 with
body `{"error": "Not found"}`, with the store untouched. -/
theorem claim3_no_route (m p : String) (b : JVal) (st : Store)
    (h1 : ¬ (m = "GET" ∧ p = "/items"))
    (h2 : ¬ (m = "POST" ∧ p = "/items"))
    (h3 : ¬ (m = "GET" ∧ pyStartsWith p "/items/" = true)) :
    handler (mkEvent m p b) st = Except.ok (routeAbsentResp, st) :=
  handler_no_route m p b st h1 h2 h3

/-- Witness for C3 at the concrete unmatched combination DELETE `/items`. -/
theorem claim3_witness :
    (¬ ("DELETE" = "GET" ∧ "/items" = "/items")) ∧
    handler (mkEvent "DELETE" "/items" JVal.jnull) [] =
      Except.ok (routeAbsentResp, []) := by
  refine ⟨by decide, ?_⟩
  exact claim3_no_route "DELETE" "/items" JVal.jnull []
    (by decide) (by decide) (by decide)

/-- C4: a GET whose path starts with `/items/` is answered from the
collection by the trailing path segment: 200 with the item's JSON when the
key is present, and exactly 404 with body `{"error": "Item not found"}`
when it is absent. -/
theorem claim4_get_by_id (st : Store) (p : String) (b : JVal)
    (hs : pyStartsWith p "/items/" = true) :
    (∀ it, lookupStore st (pyLastSeg p) = some it →
      handler (mkEvent "GET" p b) st = Except.ok (itemResp it, st)) ∧
    (lookupStore st (pyLastSeg p) = none →
      handler (mkEvent "GET" p b) st = Except.ok (itemAbsentResp, st)) := by
  constructor
  · intro it hl
    exact handler_get_hit p b st it hs hl
  · intro hl
    exact handler_get_miss p b st hs hl

/-- The item used by concrete witnesses. -/
def wItem : JVal := JVal.jobj [("id", JVal.jstr "42"), ("name", JVal.jstr "widget")]

/-- Witness for C4: a hit on the stored id 42, and a miss on the
never-written id zzz. -/
theorem claim4_witness :
    pyStartsWith "/items/42" "/items/" = true ∧
    handler (mkEvent "GET" "/items/42" JVal.jnull) [("42", wItem)] =
      Except.ok (itemResp wItem, [("42", wItem)]) ∧
    handler (mkEvent "GET" "/items/zzz" JVal.jnull) [] =
      Except.ok (itemAbsentResp, []) := by
  refine ⟨rfl, ?_, ?_⟩
  · exact (claim4_get_by_id [("42", wItem)] "/items/42" JVal.jnull rfl).1 wItem rfl
  · exact (claim4_get_by_id [] "/items/zzz" JVal.jnull rfl).2 rfl

/-- C5, counterexample: the body `{}` parses as JSON, yet the POST is not
answered with 201 — the store rejects an item without the `id` key and the
handler returns the 500 conversion of that failure. -/
theorem claim5_counterexample :
    parseJson "\x7b\x7d" = Except.ok (JVal.jobj []) ∧
    handler (postEvent "\x7b\x7d") [] =
      Except.ok
        (errResp "One or more parameter values were invalid: Missing the key id in the item",
         []) :=
  ⟨rfl, rfl⟩

/-- C5 (amended): a POST to `/items` whose body parses as a JSON object
carrying a string `id` attribute upserts the parsed item into the
collection under that id and returns 201 with body
`{"message": "Item created"}`. -/
theorem claim5_post_created (st : Store) (bs : String) (it : JVal) (i : String)
    (h : parsedItem bs = some (it, i)) :
    handler (postEvent bs) st = Except.ok (createdResp, insertStore st i (toDyn it)) :=
  handler_post bs st it i h

/-- Witness for C5 (amended) at the spec's example body. -/
theorem claim5_witness :
    parsedItem "\x7b\"id\": \"42\", \"name\": \"widget\"\x7d" = some (wItem, "42") ∧
    handler (postEvent "\x7b\"id\": \"42\", \"name\": \"widget\"\x7d") [] =
      Except.ok (createdResp, insertStore [] "42" (toDyn wItem)) := by
  refine ⟨rfl, ?_⟩
  exact claim5_post_created [] _ wItem "42" rfl

/-- C2: an item successfully written via POST `/items` (a JSON object with
a string `id`, here one that can instantiate the single-segment `{id}`
route parameter, i.e. contains no slash) is returned by a subsequent GET
on `/items/{id}`: the POST answers 201, and the GET answers 200 with a
body that is the default JSON serialization of a decimal-free value
JSON-equal to the written item (the numeric attributes having round-tripped
through the store's decimal form into floats). -/
theorem claim2_roundtrip (st : Store) (bs : String) (b2 : JVal) (it : JVal) (i : String)
    (h : parsedItem bs = some (it, i)) (hslash : '/' ∉ i.data) :
    handler (postEvent bs) st = Except.ok (createdResp, insertStore st i (toDyn it)) ∧
    (∃ w, handler (mkEvent "GET" ("/items/" ++ i) b2) (insertStore st i (toDyn it)) =
        Except.ok (itemResp (toDyn it), insertStore st i (toDyn it)) ∧
      renderDefault w = Except.ok ((itemResp (toDyn it)).body) ∧
      noDec w = true ∧ jeq w it = true) := by
  refine ⟨handler_post bs st it i h,
    ⟨stripDec (toDyn it), ?_, renderDefault_stripDec (toDyn it),
     noDec_stripDec (toDyn it), jeq_stripDec_toDyn it⟩⟩
  have h1 : pyStartsWith ("/items/" ++ i) "/items/" = true := pyStartsWith_append _ _
  have h2 : lookupStore (insertStore st i (toDyn it)) (pyLastSeg ("/items/" ++ i)) =
      some (toDyn it) := by
    rw [pyLastSeg_concat i hslash]
    exact lookup_insert_self st i (toDyn it)
  exact handler_get_hit ("/items/" ++ i) b2 (insertStore st i (toDyn it)) (toDyn it) h1 h2

/-- Witness for C2 at the spec's example item 42/widget. -/
theorem claim2_witness :
    parsedItem "\x7b\"id\": \"42\", \"name\": \"widget\"\x7d" = some (wItem, "42") ∧
    '/' ∉ ("42" : String).data ∧
    (∃ w, handler (mkEvent "GET" "/items/42" JVal.jnull) (insertStore [] "42" (toDyn wItem)) =
        Except.ok (itemResp (toDyn wItem), insertStore [] "42" (toDyn wItem)) ∧
      renderDefault w = Except.ok ((itemResp (toDyn wItem)).body) ∧
      noDec w = true ∧ jeq w wItem = true) := by
  refine ⟨rfl, by decide, ?_⟩
  exact (claim2_roundtrip [] "\x7b\"id\": \"42\", \"name\": \"widget\"\x7d" JVal.jnull
    wItem "42" rfl (by decide)).2

/-- C6: a POST whose body re-uses the id of an already stored item
overwrites it: after the two POSTs the collection holds the new item under
that id (and no longer the old one, whenever the two stored values
differ), and a subsequent GET on `/items/{id}` returns the newly written
value. -/
theorem claim6_upsert (st : Store) (bs1 bs2 : String) (b3 : JVal)
    (it1 it2 : JVal) (i : String)
    (h1 : parsedItem bs1 = some (it1, i)) (h2 : parsedItem bs2 = some (it2, i))
    (hslash : '/' ∉ i.data) :
    handler (postEvent bs1) st = Except.ok (createdResp, insertStore st i (toDyn it1)) ∧
    handler (postEvent bs2) (insertStore st i (toDyn it1)) =
      Except.ok (createdResp, insertStore (insertStore st i (toDyn it1)) i (toDyn it2)) ∧
    handler (mkEvent "GET" ("/items/" ++ i) b3)
        (insertStore (insertStore st i (toDyn it1)) i (toDyn it2)) =
      Except.ok (itemResp (toDyn it2),
        insertStore (insertStore st i (toDyn it1)) i (toDyn it2)) ∧
    lookupStore (insertStore (insertStore st i (toDyn it1)) i (toDyn it2)) i =
      some (toDyn it2) ∧
    (¬ toDyn it2 = toDyn it1 →
      ¬ lookupStore (insertStore (insertStore st i (toDyn it1)) i (toDyn it2)) i =
          some (toDyn it1)) := by
  refine ⟨handler_post bs1 st it1 i h1, handler_post bs2 _ it2 i h2, ?_, ?_, ?_⟩
  · have hsw : pyStartsWith ("/items/" ++ i) "/items/" = true := pyStartsWith_append _ _
    have hl : lookupStore (insertStore (insertStore st i (toDyn it1)) i (toDyn it2))
        (pyLastSeg ("/items/" ++ i)) = some (toDyn it2) := by
      rw [pyLastSeg_concat i hslash]
      exact lookup_insert_self _ i (toDyn it2)
    exact handler_get_hit _ b3 _ (toDyn it2) hsw hl
  · exact lookup_insert_self _ i (toDyn it2)
  · intro hne hcontra
    rw [lookup_insert_self _ i (toDyn it2)] at hcontra
    exact hne (Option.some.inj hcontra)

/-- The first and second value written under the shared id in the C6
witness. -/
def wOld : JVal := JVal.jobj [("id", JVal.jstr "7"), ("v", JVal.jstr "one")]

/-- The overwriting value of the C6 witness. -/
def wNew : JVal := JVal.jobj [("id", JVal.jstr "7"), ("v", JVal.jstr "two")]

/-- Witness for C6: writing id 7 twice leaves the second value in the
collection and the GET returns it. -/
theorem claim6_witness :
    parsedItem "\x7b\"id\": \"7\", \"v\": \"one\"\x7d" = some (wOld, "7") ∧
    parsedItem "\x7b\"id\": \"7\", \"v\": \"two\"\x7d" = some (wNew, "7") ∧
    handler (mkEvent "GET" "/items/7" JVal.jnull)
        (insertStore (insertStore [] "7" (toDyn wOld)) "7" (toDyn wNew)) =
      Except.ok (itemResp (toDyn wNew),
        insertStore (insertStore [] "7" (toDyn wOld)) "7" (toDyn wNew)) ∧
    lookupStore (insertStore (insertStore [] "7" (toDyn wOld)) "7" (toDyn wNew)) "7" =
      some (toDyn wNew) := by
  have hc := claim6_upsert [] "\x7b\"id\": \"7\", \"v\": \"one\"\x7d"
    "\x7b\"id\": \"7\", \"v\": \"two\"\x7d" JVal.jnull wOld wNew "7" rfl rfl (by decide)
  exact ⟨rfl, rfl, hc.2.2.1, hc.2.2.2.1⟩

/-- C7: a GET on `/items` enumerates the collection — it answers 200 with
the JSON array of all stored items — and after a sequence of POSTs with
pairwise distinct ids every posted item is in the enumerated collection
(the store persists across invocations; nothing re-initializes it). -/
theorem claim7_scan (bodies : List String) (st : Store) (b2 : JVal) :
    handler (mkEvent "GET" "/items" b2) (runPosts st bodies) =
      Except.ok (scanResp (runPosts st bodies), runPosts st bodies) ∧
    (List.Pairwise differentIds bodies →
      ∀ b ∈ bodies, ∀ it i, parsedItem b = some (it, i) →
        toDyn it ∈ scanStore (runPosts st bodies)) := by
  refine ⟨handler_get_items b2 (runPosts st bodies), ?_⟩
  intro hpw b hb it i hp
  exact lookup_mem_scan _ i _ (runPosts_contains bodies st b it i hpw hb hp)

/-- First POST body of the C7 witness. -/
def wBody1 : String := "\x7b\"id\": \"1\"\x7d"

/-- Second POST body of the C7 witness. -/
def wBody2 : String := "\x7b\"id\": \"2\"\x7d"

/-- Witness for C7: after posting ids 1 and 2, the stored form of item 1
is in the scan of the resulting collection and the GET returns the scan
response. -/
theorem claim7_witness :
    List.Pairwise differentIds [wBody1, wBody2] ∧
    toDyn (JVal.jobj [("id", JVal.jstr "1")]) ∈ scanStore (runPosts [] [wBody1, wBody2]) ∧
    handler (mkEvent "GET" "/items" JVal.jnull) (runPosts [] [wBody1, wBody2]) =
      Except.ok (scanResp (runPosts [] [wBody1, wBody2]), runPosts [] [wBody1, wBody2]) := by
  have d : differentIds wBody1 wBody2 := by
    intro it1 i1 it2 i2 ha hb
    have e1 : parsedItem wBody1 = some (JVal.jobj [("id", JVal.jstr "1")], "1") := rfl
    have e2 : parsedItem wBody2 = some (JVal.jobj [("id", JVal.jstr "2")], "2") := rfl
    rw [e1] at ha
    rw [e2] at hb
    have hi1 : "1" = i1 := congrArg Prod.snd (Option.some.inj ha)
    have hi2 : "2" = i2 := congrArg Prod.snd (Option.some.inj hb)
    rw [← hi1, ← hi2]
    decide
  have hpw : List.Pairwise differentIds [wBody1, wBody2] := by
    refine List.pairwise_cons.mpr ⟨?_, List.pairwise_cons.mpr ⟨?_, List.Pairwise.nil⟩⟩
    · intro b hb
      have hb2 : b = wBody2 := by simpa using hb
      rw [hb2]
      exact d
    · intro b hb
      simp at hb
  refine ⟨hpw, ?_, (claim7_scan [wBody1, wBody2] [] JVal.jnull).1⟩
  exact (claim7_scan [wBody1, wBody2] [] JVal.jnull).2 hpw wBody1
    (List.mem_cons_self wBody1 [wBody2]) (JVal.jobj [("id", JVal.jstr "1")]) "1" rfl

/-- C8: every 200 response of a GET request (the scan route and the
by-id route alike) has a body produced by the default JSON encoder from a
value containing no decimal anywhere — the handler never hands a
decimal-typed value to the serializer without the `DecimalEncoder`
float conversion. -/
theorem claim8_no_decimal (st : Store) (p : String) (b : JVal) (r : Resp) (st2 : Store)
    (hh : handler (mkEvent "GET" p b) st = Except.ok (r, st2))
    (h200 : r.statusCode = 200) :
    ∃ w, noDec w = true ∧ renderDefault w = Except.ok (r.body) := by
  rcases handler_get_cases st p b with ⟨_, he⟩ | ⟨_, it, _, he⟩ | ⟨_, _, he⟩ | ⟨_, _, he⟩
  · rw [he] at hh
    have hr : scanResp st = r := congrArg Prod.fst (Except.ok.inj hh)
    refine ⟨stripDec (JVal.jarr (scanStore st)), noDec_stripDec _, ?_⟩
    rw [← hr]
    exact renderDefault_stripDec (JVal.jarr (scanStore st))
  · rw [he] at hh
    have hr : itemResp it = r := congrArg Prod.fst (Except.ok.inj hh)
    refine ⟨stripDec it, noDec_stripDec it, ?_⟩
    rw [← hr]
    exact renderDefault_stripDec it
  · rw [he] at hh
    have hr : itemAbsentResp = r := congrArg Prod.fst (Except.ok.inj hh)
    rw [← hr] at h200
    exact absurd h200 (by decide)
  · rw [he] at hh
    have hr : routeAbsentResp = r := congrArg Prod.fst (Except.ok.inj hh)
    rw [← hr] at h200
    exact absurd h200 (by decide)

/-- Stored item with a decimal attribute, for the C8 witness. -/
def wDecItem : JVal := JVal.jobj [("id", JVal.jstr "9"), ("n", JVal.jdec 5)]

/-- Witness for C8: a GET hit on an item holding a decimal-typed number. -/
theorem claim8_witness :
    handler (mkEvent "GET" "/items/9" JVal.jnull) [("9", wDecItem)] =
      Except.ok (itemResp wDecItem, [("9", wDecItem)]) ∧
    (itemResp wDecItem).statusCode = 200 ∧
    (∃ w, noDec w = true ∧ renderDefault w = Except.ok ((itemResp wDecItem).body)) := by
  refine ⟨rfl, rfl, ?_⟩
  exact claim8_no_decimal [("9", wDecItem)] "/items/9" JVal.jnull
    (itemResp wDecItem) [("9", wDecItem)] rfl rfl

/-- C9: GET requests are pure reads — whatever the path, a GET invocation
returns the store unchanged — and a POST changes at most the single item
keyed by the posted body's id: every other key reads the same before and
after, and a POST whose body the store rejects leaves the store unchanged
altogether. -/
theorem claim9_frame :
    (∀ (st : Store) (p : String) (b : JVal) (r : Resp) (st2 : Store),
        handler (mkEvent "GET" p b) st = Except.ok (r, st2) → st2 = st) ∧
    (∀ (st : Store) (bs : String) (it : JVal) (i : String) (r : Resp) (st2 : Store),
        parsedItem bs = some (it, i) →
        handler (postEvent bs) st = Except.ok (r, st2) →
        ∀ k, ¬ k = i → lookupStore st2 k = lookupStore st k) ∧
    (∀ (st : Store) (bs : String) (r : Resp) (st2 : Store),
        parsedItem bs = none →
        handler (postEvent bs) st = Except.ok (r, st2) → st2 = st) := by
  refine ⟨?_, ?_, ?_⟩
  · intro st p b r st2 hh
    rcases handler_get_cases st p b with ⟨_, he⟩ | ⟨_, it, _, he⟩ | ⟨_, _, he⟩ | ⟨_, _, he⟩ <;>
      rw [he] at hh <;>
      exact (congrArg Prod.snd (Except.ok.inj hh)).symm
  · intro st bs it i r st2 hp hh k hk
    rw [handler_post bs st it i hp] at hh
    have h2 : insertStore st i (toDyn it) = st2 := congrArg Prod.snd (Except.ok.inj hh)
    rw [← h2]
    exact lookup_insert_ne st i (toDyn it) k hk
  · intro st bs r st2 hp hh
    obtain ⟨e, he⟩ := handler_post_invalid bs st hp
    rw [he] at hh
    exact (congrArg Prod.snd (Except.ok.inj hh)).symm

/-- Witness for C9: the POST of id 9 leaves the unrelated key k reading
the same value as before. -/
theorem claim9_witness :
    parsedItem "\x7b\"id\": \"9\"\x7d" = some (JVal.jobj [("id", JVal.jstr "9")], "9") ∧
    lookupStore (insertStore [("k", wItem)] "9" (toDyn (JVal.jobj [("id", JVal.jstr "9")])))
        "k" = lookupStore [("k", wItem)] "k" := by
  refine ⟨rfl, ?_⟩
  exact claim9_frame.2.1 [("k", wItem)] "\x7b\"id\": \"9\"\x7d"
    (JVal.jobj [("id", JVal.jstr "9")]) "9" createdResp
    (insertStore [("k", wItem)] "9" (toDyn (JVal.jobj [("id", JVal.jstr "9")])))
    rfl rfl "k" (by decide)

/-- C10: every GET whose path begins with `/items/` is routed by the
substring after the last slash: the handler answers from the collection at
that key (200 on a hit, the item-not-found 404 on a miss) and never falls
through to the catch-all route; in particular the path `/items/` looks up
the empty-string id and `/items/a/b` looks up `b`. -/
theorem claim10_trailing (st : Store) (p : String) (b : JVal)
    (hs : pyStartsWith p "/items/" = true) :
    (pyLastSeg "/items/" = "" ∧ pyLastSeg "/items/a/b" = "b") ∧
    (∃ r, handler (mkEvent "GET" p b) st = Except.ok (r, st) ∧
      ((∃ it, lookupStore st (pyLastSeg p) = some it ∧ r = itemResp it) ∨
       (lookupStore st (pyLastSeg p) = none ∧ r = itemAbsentResp)) ∧
      ¬ r = routeAbsentResp) := by
  refine ⟨⟨rfl, rfl⟩, ?_⟩
  cases hl : lookupStore st (pyLastSeg p) with
  | some it =>
    refine ⟨itemResp it, handler_get_hit p b st it hs hl, Or.inl ⟨it, rfl, rfl⟩, ?_⟩
    intro he
    have h2 := congrArg Resp.statusCode he
    simp [itemResp, routeAbsentResp] at h2
  | none =>
    exact ⟨itemAbsentResp, handler_get_miss p b st hs hl, Or.inr ⟨rfl, rfl⟩, by decide⟩

/-- Witness for C10: the two-segment path `/items/a/b` resolves to the id
`b`, which is present in the store, so the handler returns that item. -/
theorem claim10_witness :
    pyStartsWith "/items/a/b" "/items/" = true ∧
    (∃ r, handler (mkEvent "GET" "/items/a/b" JVal.jnull) [("b", wItem)] =
        Except.ok (r, [("b", wItem)]) ∧
      ((∃ it, lookupStore [("b", wItem)] (pyLastSeg "/items/a/b") = some it ∧
          r = itemResp it) ∨
       (lookupStore [("b", wItem)] (pyLastSeg "/items/a/b") = none ∧
          r = itemAbsentResp)) ∧
      ¬ r = routeAbsentResp) := by
  refine ⟨rfl, ?_⟩
  exact (claim10_trailing [("b", wItem)] "/items/a/b" JVal.jnull rfl).2

end ServerlessApi
